import Mathlib

/-!
Shallow embedding of the suporte-offshore chat application: the document
validators and masks (`validateCPF`, `maskCPF`), the persistence gateway
(`createConversation`, `getConversations`, `deleteConversation`,
`loadChatHistory`, `saveMessageToDb`, `uploadChatAttachment`), the reply
gateway (`sendMessageToWebhook`), and the chat send pipeline
(`handleSendMessage`).

External effects are made explicit: the backend database is a `Db` value,
the authenticated session is an `Option Session` argument, and each
backend call's success or failure is an explicit boolean (or, for the
webhook, a `WebhookResp`) supplied by the environment.  Thrown JavaScript
exceptions are modelled with `Except`.
-/

/-- A parsed JSON value, the result of `response.json()`.  Objects are
modelled as association lists with distinct keys (as produced by
`JSON.parse`). -/
inductive JsonValue where
  | null
  | bool (b : Bool)
  | num (n : Int)
  | str (s : String)
  | arr (elems : List JsonValue)
  | obj (fields : List (String × JsonValue))

/-- Property lookup on a JSON object's field list. -/
def lookupField : List (String × JsonValue) → String → Option JsonValue
  | [], _ => none
  | (k, v) :: rest, key => if k = key then some v else lookupField rest key

/-- JavaScript property read `data.key` for non-null `data`: a field of an
object, `undefined` (`none`) on every other value. -/
def jsLookup : JsonValue → String → Option JsonValue
  | .obj fields, key => lookupField fields key
  | _, _ => none

/-- JavaScript truthiness of a possibly-`undefined` value, as used by the
`||` fallback chain: `undefined`, `null`, `false`, `0` and `""` are falsy. -/
def jsTruthy : Option JsonValue → Bool
  | none => false
  | some .null => false
  | some (.bool b) => b
  | some (.num n) => n != 0
  | some (.str s) => !(s == "")
  | some (.arr _) => true
  | some (.obj _) => true

/-- The fixed fallback reply used when the webhook body carries no text. -/
def replySentinel : JsonValue := .str ("Recebido, mas sem resposta de texto.")

/-- The value of `data.reply || data.output || (typeof data === 'string' ?
data : "Recebido, mas sem resposta de texto.")` computed over the parsed
body.  Reading `.reply` on a `null` body throws a `TypeError`, modelled as
`Except.error`. -/
def webhookReplyValue (data : JsonValue) : Except Unit JsonValue :=
  match data with
  | .null => .error ()
  | _ =>
    if jsTruthy (jsLookup data ("reply")) then .ok ((jsLookup data ("reply")).getD .null)
    else if jsTruthy (jsLookup data ("output")) then .ok ((jsLookup data ("output")).getD .null)
    else
      match data with
      | .str _ => .ok data
      | _ => .ok replySentinel

/-- Outcome of the `fetch` to the webhook, as determined by the network:
a transport failure, a non-success HTTP status, a body that is not valid
JSON, or a parsed JSON body. -/
inductive WebhookResp where
  | netError
  | httpError (statusText : String)
  | invalidJson
  | success (body : JsonValue)

/-- Response handling of `sendMessageToWebhook` (the request payload does
not affect the returned value and is elided): a non-ok status throws, an
unparsable body throws, and every error is re-thrown to the caller after
logging; otherwise the reply is extracted by `webhookReplyValue`. -/
def sendMessageToWebhook (resp : WebhookResp) : Except Unit JsonValue :=
  match resp with
  | .netError => .error ()
  | .httpError _ => .error ()
  | .invalidJson => .error ()
  | .success body => webhookReplyValue body

/-- `cpf.replace(/[^\d]+/g, '')`: keep only the decimal digits. -/
def stripNonDigits (s : String) : String :=
  String.mk (s.toList.filter Char.isDigit)

/-- `parseInt` of a single digit character. -/
def digitVal (c : Char) : Nat := c.toNat - 48

/-- `parseInt(cpf.charAt(i))` for an all-digit `cpf`. -/
def cpfDigit (cpf : String) (i : Nat) : Nat := digitVal (cpf.toList.getD i '0')

/-- The explicit blacklist of eleven-fold repeated digits in `validateCPF`. -/
def cpfBlacklisted (cpf : String) : Bool :=
  cpf == ("00000000000") || cpf == ("11111111111") || cpf == ("22222222222") ||
  cpf == ("33333333333") || cpf == ("44444444444") || cpf == ("55555555555") ||
  cpf == ("66666666666") || cpf == ("77777777777") || cpf == ("88888888888") ||
  cpf == ("99999999999")

/-- `validateCPF`: strips non-digits, rejects the empty string, wrong
lengths and the repeated-digit blacklist, then checks both check digits. -/
def validateCPF (input : String) : Bool :=
  let cpf := stripNonDigits input
  if cpf == ("") then false
  else if cpf.length != 11 || cpfBlacklisted cpf then false
  else
    let add1 := (List.range 9).foldl (fun acc i => acc + cpfDigit cpf i * (10 - i)) 0
    let rev1 := 11 - add1 % 11
    let rev1 := if rev1 == 10 || rev1 == 11 then 0 else rev1
    if rev1 != cpfDigit cpf 9 then false
    else
      let add2 := (List.range 10).foldl (fun acc i => acc + cpfDigit cpf i * (11 - i)) 0
      let rev2 := 11 - add2 % 11
      let rev2 := if rev2 == 10 || rev2 == 11 then 0 else rev2
      if rev2 != cpfDigit cpf 10 then false else true

/-- First-occurrence replacement of `/(\d{3})(\d)/` by `"$1.$2"`: at the
leftmost position where four digits occur in a row, a dot is inserted
after the third. -/
def insertDotAfter3 : List Char → List Char
  | c1 :: c2 :: c3 :: c4 :: rest =>
    if c1.isDigit && c2.isDigit && c3.isDigit && c4.isDigit then
      c1 :: c2 :: c3 :: '.' :: c4 :: rest
    else
      c1 :: insertDotAfter3 (c2 :: c3 :: c4 :: rest)
  | l => l

/-- First-occurrence replacement of `/(\d{3})(\d{1,2})/` by `"$1-$2"`:
at the leftmost position with three digits followed by one or two digits
(greedy), a dash is inserted after the third digit. -/
def insertDash : List Char → List Char
  | c1 :: c2 :: c3 :: c4 :: rest =>
    if c1.isDigit && c2.isDigit && c3.isDigit && c4.isDigit then
      match rest with
      | c5 :: rest2 =>
        if c5.isDigit then c1 :: c2 :: c3 :: '-' :: c4 :: c5 :: rest2
        else c1 :: c2 :: c3 :: '-' :: c4 :: rest
      | [] => c1 :: c2 :: c3 :: '-' :: c4 :: rest
    else
      c1 :: insertDash (c2 :: c3 :: c4 :: rest)
  | l => l

/-- First-occurrence replacement of `/(-\d{2})\d+?$/` by `"$1"`: if a dash
followed by two digits is followed by only digits (at least one) up to the
end, those trailing digits are dropped. -/
def dropTrailAfterDash : List Char → List Char
  | [] => []
  | x :: rest =>
    if x = '-' then
      match rest with
      | a :: b :: c :: rest2 =>
        if a.isDigit && b.isDigit && c.isDigit && rest2.all Char.isDigit then
          [x, a, b]
        else x :: dropTrailAfterDash rest
      | _ => x :: dropTrailAfterDash rest
    else x :: dropTrailAfterDash rest

/-- `maskCPF`: strips non-digits then applies the four chained `replace`
calls of the source (two dot insertions, a dash insertion, and the
trailing-digit truncation). -/
def maskCPF (s : String) : String :=
  String.mk (dropTrailAfterDash (insertDash (insertDotAfter3 (insertDotAfter3
    (s.toList.filter Char.isDigit)))))

/-- JavaScript `String.prototype.trim`: whitespace stripped from both
ends, modelled over the character list. -/
def jsTrim (s : String) : String :=
  String.mk (((s.toList.dropWhile Char.isWhitespace).reverse.dropWhile
    Char.isWhitespace).reverse)

/-- An authenticated session, read via `supabase.auth.getSession()`. -/
structure Session where
  userId : String
deriving DecidableEq, Repr

/-- A browser `File` as far as the pipeline inspects it. -/
structure File where
  name : String
  type : String
deriving DecidableEq, Repr

/-- The message role. -/
inductive Role where
  | user
  | assistant
deriving DecidableEq, Repr

/-- The attachment descriptor of `ChatMessage`, also the shape stored in
the `attachment_info` column by the pipeline: `previewUrl` is the
transient local blob, `url` the durable storage URL. -/
structure Attachment where
  name : String
  type : String
  previewUrl : Option String
  url : Option String
deriving DecidableEq, Repr

/-- The UI-side `ChatMessage` record.  Timestamps are abstracted to the
backend clock (a natural number). -/
structure ChatMessage where
  id : String
  role : Role
  content : JsonValue
  timestamp : Nat
  attachment : Option Attachment

/-- A row of the `conversations` table.  `updated_at` is abstracted to the
backend clock. -/
structure ConversationRow where
  id : String
  user_id : String
  title : String
  updated_at : Nat
deriving DecidableEq, Repr

/-- A row of the `chat_messages` table.  `created_at` is the
server-generated creation time (the backend clock at insertion). -/
structure MessageRow where
  id : String
  conversation_id : String
  user_id : String
  role : Role
  content : JsonValue
  attachment_info : Option Attachment
  created_at : Nat

/-- The backend state: the two tables, the storage bucket's object keys, a
counter for server-generated ids, and a monotone clock. -/
structure Db where
  conversations : List ConversationRow
  chat_messages : List MessageRow
  storage : List String
  nextId : Nat
  now : Nat

/-- `title.substring(0, 30) || "Nova Conversa"`. -/
def cleanTitleOf (title : String) : String :=
  let t := String.mk (title.toList.take 30)
  if t = "" then ("Nova Conversa") else t

/-- `createConversation`: requires a session (else `null`), trims the
title, inserts a row scoped to the caller; a backend error yields `null`
and leaves the table unchanged. -/
def createConversation (session : Option Session) (insertError : Bool) (title : String)
    (db : Db) : Option ConversationRow × Db :=
  match session with
  | none => (none, db)
  | some s =>
    if insertError then (none, db)
    else
      let conv : ConversationRow :=
        { id := String.mk ('c' :: (toString db.nextId).toList), user_id := s.userId,
          title := cleanTitleOf title, updated_at := db.now }
      (some conv, { db with conversations := db.conversations ++ [conv],
                            nextId := db.nextId + 1, now := db.now + 1 })

/-- Stable insertion (descending `updated_at`) used to model the backend's
`order('updated_at', { ascending: false })`. -/
def insertByUpdated (c : ConversationRow) : List ConversationRow → List ConversationRow
  | [] => [c]
  | x :: xs => if c.updated_at ≤ x.updated_at then x :: insertByUpdated c xs else c :: x :: xs

/-- Sort conversations by `updated_at` descending. -/
def sortByUpdatedDesc : List ConversationRow → List ConversationRow
  | [] => []
  | x :: xs => insertByUpdated x (sortByUpdatedDesc xs)

/-- `getConversations`: the caller's conversations, most recent first;
empty on missing session or backend error. -/
def getConversations (session : Option Session) (queryError : Bool) (db : Db) :
    List ConversationRow :=
  match session with
  | none => []
  | some s =>
    if queryError then []
    else sortByUpdatedDesc (db.conversations.filter (fun c => c.user_id == s.userId))

/-- `deleteConversation`: deletes by id with no session check; the flag is
`false` exactly when the backend reports an error. -/
def deleteConversation (deleteError : Bool) (conversationId : String) (db : Db) :
    Bool × Db :=
  if deleteError then (false, db)
  else (true, { db with conversations :=
                  db.conversations.filter (fun c => !(c.id == conversationId)) })

/-- Stable insertion (ascending `created_at`) used to model the backend's
`order('created_at', { ascending: true })`. -/
def insertByTime (m : MessageRow) : List MessageRow → List MessageRow
  | [] => [m]
  | x :: xs => if x.created_at ≤ m.created_at then x :: insertByTime m xs else m :: x :: xs

/-- Sort message rows by `created_at` ascending. -/
def sortByTime : List MessageRow → List MessageRow
  | [] => []
  | x :: xs => insertByTime x (sortByTime xs)

/-- The row-to-`ChatMessage` mapping of `loadChatHistory`, rebuilding the
attachment descriptor field by field from `attachment_info`. -/
def rowToChatMessage (r : MessageRow) : ChatMessage :=
  { id := r.id, role := r.role, content := r.content, timestamp := r.created_at,
    attachment := r.attachment_info.map (fun a =>
      { name := a.name, type := a.type, previewUrl := a.previewUrl, url := a.url }) }

/-- `loadChatHistory`: all messages of one conversation ascending by
creation time; empty on missing session or backend error. -/
def loadChatHistory (session : Option Session) (queryError : Bool) (conversationId : String)
    (db : Db) : List ChatMessage :=
  match session with
  | none => []
  | some _ =>
    if queryError then []
    else (sortByTime (db.chat_messages.filter
            (fun r => r.conversation_id == conversationId))).map rowToChatMessage

/-- The `updated_at` bump applied to the owning conversation after a
successful message insert. -/
def bumpConversation (conversationId : String) (t : Nat) :
    List ConversationRow → List ConversationRow :=
  List.map (fun c => if c.id = conversationId then { c with updated_at := t } else c)

/-- `saveMessageToDb`: no-op without a session or with an empty
conversation id; a backend error is logged and swallowed (no row, no
bump); on success the row is inserted and the owning conversation's
`updated_at` is bumped. -/
def saveMessageToDb (session : Option Session) (insertError : Bool) (conversationId : String)
    (role : Role) (content : JsonValue) (attachmentInfo : Option Attachment) (db : Db) : Db :=
  match session with
  | none => db
  | some s =>
    if conversationId = "" then db
    else if insertError then db
    else
      let row : MessageRow :=
        { id := toString db.now, conversation_id := conversationId, user_id := s.userId,
          role := role, content := content, attachment_info := attachmentInfo,
          created_at := db.now }
      { db with chat_messages := db.chat_messages ++ [row],
                conversations := bumpConversation conversationId db.now db.conversations,
                now := db.now + 1 }

/-- The `try` body of `uploadChatAttachment`: throws without a session or
on a rejected upload; otherwise stores the object under a key namespaced
by user id and timestamp and resolves its public URL. -/
def uploadChatAttachmentBody (session : Option Session) (uploadError : Bool) (f : File)
    (db : Db) : Except Unit (String × Db) :=
  match session with
  | none => .error ()
  | some s =>
    if uploadError then .error ()
    else
      let fileName := s.userId ++ ("/") ++ toString db.now ++ ("_") ++ f.name
      .ok (fileName, { db with storage := db.storage ++ [fileName], now := db.now + 1 })

/-- `uploadChatAttachment`: the `try` body with every failure caught,
logged and turned into a `null` result — nothing is thrown to the caller. -/
def uploadChatAttachment (session : Option Session) (uploadError : Bool) (f : File)
    (db : Db) : Option String × Db :=
  match uploadChatAttachmentBody session uploadError f db with
  | .error _ => (none, db)
  | .ok (url, db2) => (some url, db2)

/-- The environment of one `handleSendMessage` run: the session and the
outcome of each backend call the run may make. -/
structure SendEnv where
  session : Option Session
  createConvError : Bool
  uploadError : Bool
  saveUserMsgError : Bool
  webhook : WebhookResp
  saveAssistantMsgError : Bool

/-- The component state touched by `handleSendMessage`.  `isTyping` is the
busy flag gating re-entry; `toasts` records the user-visible error
notifications emitted so far. -/
structure ChatState where
  messages : List ChatMessage
  inputValue : String
  isTyping : Bool
  selectedFile : Option File
  conversations : List ConversationRow
  activeConversationId : Option String
  toasts : List String

/-- Step 2 of the pipeline: upload the attachment when a file was
supplied (`if (fileToSend) { ... }`), otherwise leave the URL undefined. -/
def uploadStep (session : Option Session) (uploadError : Bool) (fileToSend : Option File)
    (db : Db) : Option String × Db :=
  match fileToSend with
  | some f => uploadChatAttachment session uploadError f db
  | none => (none, db)

/-- Steps 2–6 of the pipeline, entered once a conversation id is resolved:
upload the attachment (failure degrades to a missing durable URL), persist
the user message, request the reply (failure is caught, reported via a
toast, and ends the run), then append and persist the assistant reply.
The `finally` clause clears the busy flag on both exits. -/
def afterResolve (env : SendEnv) (cid contentToSend : String) (fileToSend : Option File)
    (st : ChatState) (db : Db) : ChatState × Db :=
  let uploadRes := uploadStep env.session env.uploadError fileToSend db
  let publicAttachmentUrl := uploadRes.1
  let db2 := uploadRes.2
  let dbAttachmentInfo := fileToSend.map (fun f =>
    { name := f.name, type := f.type, previewUrl := none, url := publicAttachmentUrl })
  let db3 := saveMessageToDb env.session env.saveUserMsgError cid .user
    (.str contentToSend) dbAttachmentInfo db2
  match sendMessageToWebhook env.webhook with
  | .error _ =>
    ({ st with toasts := st.toasts ++ [("Erro ao processar mensagem.")],
               isTyping := false }, db3)
  | .ok responseText =>
    let aiMessage : ChatMessage :=
      { id := toString (db3.now + 1), role := .assistant, content := responseText,
        timestamp := db3.now, attachment := none }
    let db4 := saveMessageToDb env.session env.saveAssistantMsgError cid .assistant
      responseText none db3
    ({ st with messages := st.messages ++ [aiMessage], isTyping := false }, db4)

/-- `handleSendMessage`: the guard (`(!inputValue.trim() && !selectedFile)
|| isTyping`) makes the call a no-op; otherwise the optimistic user
message is appended, the input cleared and the busy flag set, the owning
conversation is resolved (created from the message text when none is
active — a failure there is caught, reported, and ends the run), and the
remaining steps run via `afterResolve`. -/
def handleSendMessage (env : SendEnv) (st : ChatState) (db : Db) : ChatState × Db :=
  if (jsTrim st.inputValue = "" ∧ st.selectedFile = none) ∨ st.isTyping = true then (st, db)
  else
    let contentToSend := st.inputValue
    let fileToSend := st.selectedFile
    let localPreviewUrl :=
      match fileToSend with
      | some f => if (f.type.toList.take 6) = ("image/").toList
                  then some (("blob:") ++ f.name) else none
      | none => none
    let optimisticMessage : ChatMessage :=
      { id := toString db.now, role := .user, content := .str contentToSend,
        timestamp := db.now,
        attachment := fileToSend.map (fun f =>
          { name := f.name, type := f.type, previewUrl := localPreviewUrl, url := none }) }
    let st1 : ChatState :=
      { st with messages := st.messages ++ [optimisticMessage], inputValue := "",
                selectedFile := none, isTyping := true }
    match st.activeConversationId with
    | some cid => afterResolve env cid contentToSend fileToSend st1 db
    | none =>
      match createConversation env.session env.createConvError contentToSend db with
      | (some conv, db1) =>
        let st2 : ChatState :=
          { st1 with activeConversationId := some conv.id,
                     conversations := conv :: st1.conversations }
        afterResolve env conv.id contentToSend fileToSend st2 db1
      | (none, db1) =>
        ({ st1 with toasts := st1.toasts ++ [("Erro ao processar mensagem.")],
                    isTyping := false }, db1)

/-- One `saveMessageToDb` request as issued by the pipeline: a role, the
content, and optionally the attachment descriptor to store. -/
structure SaveReq where
  role : Role
  content : JsonValue
  attachmentInfo : Option Attachment

/-- A sequence of `saveMessageToDb` calls for one conversation under a
live session and an accepting backend. -/
def applySaves (s : Session) (cid : String) (reqs : List SaveReq) (db : Db) : Db :=
  reqs.foldl (fun d r =>
    saveMessageToDb (some s) false cid r.role r.content r.attachmentInfo d) db

/-- The row `saveMessageToDb` inserts for a request at clock `t`. -/
def mkRow (s : Session) (cid : String) (r : SaveReq) (t : Nat) : MessageRow :=
  { id := toString t, conversation_id := cid, user_id := s.userId, role := r.role,
    content := r.content, attachment_info := r.attachmentInfo, created_at := t }

/-- The rows a sequence of saves inserts, timestamped consecutively. -/
def mkRows (s : Session) (cid : String) : List SaveReq → Nat → List MessageRow
  | [], _ => []
  | r :: rs, t => mkRow s cid r t :: mkRows s cid rs (t + 1)

/-- A sample authenticated session used by concrete witnesses. -/
def sampleSession : Session := { userId := ("u1") }

/-- A sample backend state used by concrete witnesses. -/
def sampleDb : Db :=
  { conversations := [{ id := ("c0"), user_id := ("u1"), title := ("Old"), updated_at := 0 }],
    chat_messages := [], storage := [], nextId := 1, now := 10 }

/-- A sample attachment file used by concrete witnesses. -/
def sampleFile : File := { name := ("doc.pdf"), type := ("application/pdf") }

/-- A sample idle component state with typed input and no active
conversation, used by concrete witnesses. -/
def sampleState : ChatState :=
  { messages := [], inputValue := ("Oi"), isTyping := false, selectedFile := none,
    conversations := [], activeConversationId := none, toasts := [] }

/-- `sampleState` with a send already in flight. -/
def busySampleState : ChatState := { sampleState with isTyping := true }

/-- `sampleState` with a file selected. -/
def fileSampleState : ChatState := { sampleState with selectedFile := some sampleFile }

/-- An environment where every backend call succeeds and the webhook
responds with a truthy `reply` field. -/
def sampleEnvOk : SendEnv :=
  { session := some sampleSession, createConvError := false, uploadError := false,
    saveUserMsgError := false,
    webhook := WebhookResp.success (JsonValue.obj [(("reply"), JsonValue.str ("ola"))]),
    saveAssistantMsgError := false }

/-- `sampleEnvOk` with the webhook request failing at the transport. -/
def sampleEnvNetFail : SendEnv := { sampleEnvOk with webhook := WebhookResp.netError }

/-- `sampleEnvOk` with the storage upload rejected. -/
def sampleEnvUploadFail : SendEnv := { sampleEnvOk with uploadError := true }

/-- `sampleEnvOk` with the conversation insert rejected. -/
def sampleEnvCreateFail : SendEnv := { sampleEnvOk with createConvError := true }

theorem toList_mk (l : List Char) : (String.mk l).toList = l := rfl

theorem digit_not_dash {c : Char} (h : c.isDigit = true) : ¬(c = '-') := by
  intro he
  rw [he] at h
  exact absurd h (by decide)

theorem stripNonDigits_idem (s : String) :
    stripNonDigits (stripNonDigits s) = stripNonDigits s := by
  simp [stripNonDigits, toList_mk, List.filter_filter]

theorem validateCPF_eq_strip (s : String) :
    validateCPF s = validateCPF (stripNonDigits s) := by
  simp only [validateCPF, stripNonDigits_idem]

/-- C9: every string of eleven identical digits is rejected by
`validateCPF`, whatever its checksum. -/
theorem validateCPF_rejects_repeated :
    ∀ d : Fin 10,
      validateCPF (String.mk (List.replicate 11 (Char.ofNat (48 + d.val)))) = false := by
  decide

/-- C10: `validateCPF` depends only on the digit characters of its input —
it agrees with itself on the digit-filtered string — and in particular a
masked form produced by `maskCPF` from an 11-digit string validates
exactly when the bare 11-digit string does. -/
theorem validateCPF_digits_only :
    (∀ s : String, validateCPF s = validateCPF (stripNonDigits s)) ∧
    (∀ a b c d e f g h i j k : Char,
      a.isDigit = true → b.isDigit = true → c.isDigit = true → d.isDigit = true →
      e.isDigit = true → f.isDigit = true → g.isDigit = true → h.isDigit = true →
      i.isDigit = true → j.isDigit = true → k.isDigit = true →
      validateCPF (maskCPF (String.mk [a, b, c, d, e, f, g, h, i, j, k])) =
        validateCPF (String.mk [a, b, c, d, e, f, g, h, i, j, k])) := by
  constructor
  · exact validateCPF_eq_strip
  · intro a b c d e f g h i j k ha hb hc hd he hf hg hh hi hj hk
    have hdot : ('.').isDigit = false := by decide
    have hdash : ('-').isDigit = false := by decide
    have hmask : stripNonDigits (maskCPF (String.mk [a, b, c, d, e, f, g, h, i, j, k])) =
        stripNonDigits (String.mk [a, b, c, d, e, f, g, h, i, j, k]) := by
      simp [maskCPF, stripNonDigits, toList_mk, insertDotAfter3, insertDash,
        dropTrailAfterDash, List.filter_cons, List.filter_nil, digit_not_dash,
        ha, hb, hc, hd, he, hf, hg, hh, hi, hj, hk, hdot, hdash]
    rw [validateCPF_eq_strip (maskCPF (String.mk [a, b, c, d, e, f, g, h, i, j, k])),
      validateCPF_eq_strip (String.mk [a, b, c, d, e, f, g, h, i, j, k]), hmask]

theorem webhookReplyValue_not_null (data : JsonValue) (h : ¬ data = JsonValue.null) :
    webhookReplyValue data =
      (if jsTruthy (jsLookup data ("reply")) then
        Except.ok ((jsLookup data ("reply")).getD .null)
      else if jsTruthy (jsLookup data ("output")) then
        Except.ok ((jsLookup data ("output")).getD .null)
      else
        match data with
        | .str _ => Except.ok data
        | _ => Except.ok replySentinel) := by
  cases data <;> simp_all [webhookReplyValue]

/-- C5 (amended): for every successful webhook response whose body parses
to a non-null JSON value, the returned reply is the first truthy of the
body's `reply` field and its `output` field; failing those, the body
itself when it is a JSON string; otherwise the fixed sentinel.  (On a
`null` body the property read throws instead — see the counterexample.) -/
theorem webhook_reply_fallback_chain (body : JsonValue) (hnn : ¬ body = JsonValue.null) :
    (∀ v, jsLookup body ("reply") = some v → jsTruthy (some v) = true →
      sendMessageToWebhook (WebhookResp.success body) = Except.ok v) ∧
    (jsTruthy (jsLookup body ("reply")) = false →
      ∀ w, jsLookup body ("output") = some w → jsTruthy (some w) = true →
        sendMessageToWebhook (WebhookResp.success body) = Except.ok w) ∧
    (jsTruthy (jsLookup body ("reply")) = false →
      jsTruthy (jsLookup body ("output")) = false →
      (∀ t, body = JsonValue.str t →
        sendMessageToWebhook (WebhookResp.success body) = Except.ok body) ∧
      ((∀ t, ¬ body = JsonValue.str t) →
        sendMessageToWebhook (WebhookResp.success body) = Except.ok replySentinel)) := by
  have hun : sendMessageToWebhook (WebhookResp.success body) = webhookReplyValue body := rfl
  rw [hun, webhookReplyValue_not_null body hnn]
  refine ⟨?_, ?_, ?_⟩
  · intro v hv htr
    rw [hv]
    simp [htr]
  · intro hrf w hw htw
    rw [hw] at *
    simp [hrf, htw]
  · intro hrf hof
    constructor
    · intro t ht
      subst ht
      simp [hrf, hof]
    · intro hnotstr
      cases body with
      | str t => exact absurd rfl (hnotstr t)
      | null => exact absurd rfl hnn
      | bool b => simp [hrf, hof]
      | num n => simp [hrf, hof]
      | arr xs => simp [hrf, hof]
      | obj fs => simp [hrf, hof]

/-- Witness for C5 at a concrete body carrying a truthy `reply` field. -/
theorem webhook_reply_fallback_chain_witness :
    sendMessageToWebhook
        (WebhookResp.success (JsonValue.obj [(("reply"), JsonValue.str ("ola"))])) =
      Except.ok (JsonValue.str ("ola")) :=
  (webhook_reply_fallback_chain (JsonValue.obj [(("reply"), JsonValue.str ("ola"))])
    (by intro h; exact JsonValue.noConfusion h)).1 (JsonValue.str ("ola")) rfl rfl

/-- C5 counterexample: a successful response whose body is JSON `null` —
the source reads `.reply` on `null`, which throws, so the call errors
instead of returning the sentinel the claim promises. -/
theorem webhook_null_body_counterexample :
    sendMessageToWebhook (WebhookResp.success JsonValue.null) = Except.error () := rfl

/-- C7: a conversation created with a session and an accepting backend
carries the input title verbatim when it is nonempty and at most 30
characters, the fixed placeholder when it is empty, and the input's first
30 characters when it is longer. -/
theorem createConversation_title (s : Session) (title : String) (db : Db) :
    ∃ conv db2,
      createConversation (some s) false title db = (some conv, db2) ∧
      db2.conversations = db.conversations ++ [conv] ∧
      (title = "" → conv.title = ("Nova Conversa")) ∧
      (¬ title = "" → title.toList.length ≤ 30 → conv.title = title) ∧
      (30 < title.toList.length → conv.title = String.mk (title.toList.take 30)) := by
  refine ⟨_, _, rfl, rfl, ?_, ?_, ?_⟩
  · intro he
    subst he
    rfl
  · intro hne hle
    have htake : title.toList.take 30 = title.toList := List.take_of_length_le hle
    have ht : String.mk (title.toList.take 30) = title := by
      rw [htake]
      rfl
    simp only [createConversation, cleanTitleOf, ht]
    rw [if_neg hne]
  · intro hgt
    have hne : ¬ String.mk (title.toList.take 30) = "" := by
      intro he
      have hdata : title.toList.take 30 = [] := congrArg String.data he
      have hlen : (title.toList.take 30).length = 0 := by rw [hdata]; rfl
      rw [List.length_take] at hlen
      omega
    simp only [createConversation, cleanTitleOf]
    rw [if_neg hne]

/-- Witness for C7 at concrete titles: nonempty short, empty, and long. -/
theorem createConversation_title_witness :
    (∃ conv db2,
      createConversation (some sampleSession) false ("Oi") sampleDb = (some conv, db2) ∧
      conv.title = ("Oi")) ∧
    (∃ conv db2,
      createConversation (some sampleSession) false ("") sampleDb = (some conv, db2) ∧
      conv.title = ("Nova Conversa")) ∧
    (∃ conv db2,
      createConversation (some sampleSession) false
          ("0123456789012345678901234567890123") sampleDb = (some conv, db2) ∧
      conv.title = ("012345678901234567890123456789")) := by
  refine ⟨?_, ?_, ?_⟩
  · obtain ⟨conv, db2, heq, _, _, hshort, _⟩ :=
      createConversation_title sampleSession ("Oi") sampleDb
    exact ⟨conv, db2, heq, hshort (by decide) (by decide)⟩
  · obtain ⟨conv, db2, heq, _, hempty, _, _⟩ :=
      createConversation_title sampleSession ("") sampleDb
    exact ⟨conv, db2, heq, hempty rfl⟩
  · obtain ⟨conv, db2, heq, _, _, _, hlong⟩ :=
      createConversation_title sampleSession ("0123456789012345678901234567890123") sampleDb
    refine ⟨conv, db2, heq, ?_⟩
    rw [hlong (by decide)]
    decide

/-- C8 (amended): with no session, `createConversation` returns `null`,
`getConversations` and `loadChatHistory` return empty lists and
`saveMessageToDb` no-ops; `deleteConversation` performs no session check
at all — its flag is `false` exactly when the backend delete reports an
error, whether or not a session exists. -/
theorem gateway_no_session :
    (∀ e title db, createConversation none e title db = (none, db)) ∧
    (∀ e db, getConversations none e db = []) ∧
    (∀ e cid db, loadChatHistory none e cid db = []) ∧
    (∀ e cid role content info db, saveMessageToDb none e cid role content info db = db) ∧
    (∀ e cid db, (deleteConversation e cid db).1 = !e) := by
  refine ⟨fun e title db => rfl, fun e db => rfl, fun e cid db => rfl,
    fun e cid role content info db => rfl, fun e cid db => ?_⟩
  cases e <;> rfl

/-- C8 counterexample: `deleteConversation` consults no session, so when
the backend reports no error it returns `true` — not the `false` failure
flag the claim promises for the no-session case. -/
theorem deleteConversation_no_session_counterexample :
    (deleteConversation false ("c0") sampleDb).1 = true := rfl

/-- Witness for C10 at concrete inputs: a masked and a bare identifier. -/
theorem validateCPF_digits_only_witness :
    validateCPF ("123.456.789-09") = validateCPF (stripNonDigits ("123.456.789-09")) ∧
    validateCPF (maskCPF (String.mk ['1', '2', '3', '4', '5', '6', '7', '8', '9', '0', '9'])) =
      validateCPF (String.mk ['1', '2', '3', '4', '5', '6', '7', '8', '9', '0', '9']) :=
  ⟨validateCPF_digits_only.1 ("123.456.789-09"),
   validateCPF_digits_only.2 '1' '2' '3' '4' '5' '6' '7' '8' '9' '0' '9'
     (by decide) (by decide) (by decide) (by decide) (by decide) (by decide)
     (by decide) (by decide) (by decide) (by decide) (by decide)⟩

theorem convId_ne_empty (n : Nat) : ¬ String.mk ('c' :: (toString n).toList) = "" := by
  intro h
  exact List.noConfusion (congrArg String.data h)

theorem uploadStep_chat_messages (sess : Option Session) (e : Bool) (file : Option File)
    (db : Db) : ((uploadStep sess e file db).2).chat_messages = db.chat_messages := by
  cases file with
  | none => rfl
  | some f =>
    cases sess with
    | none => rfl
    | some s => cases e <;> rfl

theorem uploadStep_conversations (sess : Option Session) (e : Bool) (file : Option File)
    (db : Db) : ((uploadStep sess e file db).2).conversations = db.conversations := by
  cases file with
  | none => rfl
  | some f =>
    cases sess with
    | none => rfl
    | some s => cases e <;> rfl

theorem uploadStep_storage (sess : Option Session) (e : Bool) (file : Option File)
    (db : Db) : ∃ objs, ((uploadStep sess e file db).2).storage = db.storage ++ objs := by
  cases file with
  | none => exact ⟨[], by simp [uploadStep]⟩
  | some f =>
    cases sess with
    | none => exact ⟨[], by simp [uploadStep, uploadChatAttachment, uploadChatAttachmentBody]⟩
    | some s =>
      cases e with
      | false =>
        exact ⟨[s.userId ++ ("/") ++ toString db.now ++ ("_") ++ f.name],
          by simp [uploadStep, uploadChatAttachment, uploadChatAttachmentBody]⟩
      | true =>
        exact ⟨[], by simp [uploadStep, uploadChatAttachment, uploadChatAttachmentBody]⟩

theorem uploadStep_fail (s : Session) (f : File) (db : Db) :
    uploadStep (some s) true (some f) db = (none, db) := rfl

theorem saveMessageToDb_success (s : Session) (cid : String) (role : Role)
    (content : JsonValue) (info : Option Attachment) (db : Db) (hc : ¬ cid = "") :
    saveMessageToDb (some s) false cid role content info db =
      { db with
        chat_messages := db.chat_messages ++
          [{ id := toString db.now, conversation_id := cid, user_id := s.userId,
             role := role, content := content, attachment_info := info,
             created_at := db.now }],
        conversations := bumpConversation cid db.now db.conversations,
        now := db.now + 1 } := by
  simp [saveMessageToDb, hc]

theorem saveMessageToDb_delta (sess : Option Session) (e : Bool) (cid : String) (role : Role)
    (content : JsonValue) (info : Option Attachment) (db : Db) :
    ∃ rows, (saveMessageToDb sess e cid role content info db).chat_messages =
        db.chat_messages ++ rows ∧
      ∀ r ∈ rows, r.conversation_id = cid ∧ r.role = role ∧ r.attachment_info = info := by
  cases sess with
  | none => exact ⟨[], by simp [saveMessageToDb], by simp⟩
  | some s =>
    by_cases hc : cid = ""
    · exact ⟨[], by simp [saveMessageToDb, hc], by simp⟩
    · cases e with
      | true => exact ⟨[], by simp [saveMessageToDb, hc], by simp⟩
      | false =>
        refine ⟨[{ id := toString db.now, conversation_id := cid, user_id := s.userId,
                   role := role, content := content, attachment_info := info,
                   created_at := db.now }], by simp [saveMessageToDb, hc], ?_⟩
        intro r hr
        rw [List.mem_singleton] at hr
        subst hr
        exact ⟨rfl, rfl, rfl⟩

theorem saveMessageToDb_conversations_length (sess : Option Session) (e : Bool)
    (cid : String) (role : Role) (content : JsonValue) (info : Option Attachment) (db : Db) :
    (saveMessageToDb sess e cid role content info db).conversations.length =
      db.conversations.length := by
  cases sess with
  | none => rfl
  | some s =>
    by_cases hc : cid = ""
    · simp [saveMessageToDb, hc]
    · cases e with
      | true => simp [saveMessageToDb, hc]
      | false => simp [saveMessageToDb, hc, bumpConversation]

theorem saveMessageToDb_storage (sess : Option Session) (e : Bool) (cid : String)
    (role : Role) (content : JsonValue) (info : Option Attachment) (db : Db) :
    (saveMessageToDb sess e cid role content info db).storage = db.storage := by
  cases sess with
  | none => rfl
  | some s =>
    by_cases hc : cid = ""
    · simp [saveMessageToDb, hc]
    · cases e with
      | true => simp [saveMessageToDb, hc]
      | false => simp [saveMessageToDb, hc]

theorem afterResolve_isTyping (env : SendEnv) (cid content : String) (file : Option File)
    (st : ChatState) (db : Db) :
    (afterResolve env cid content file st db).1.isTyping = false := by
  simp only [afterResolve]
  split <;> rfl

theorem afterResolve_activeId (env : SendEnv) (cid content : String) (file : Option File)
    (st : ChatState) (db : Db) :
    (afterResolve env cid content file st db).1.activeConversationId =
      st.activeConversationId := by
  simp only [afterResolve]
  split <;> rfl

theorem afterResolve_delta (env : SendEnv) (cid content : String) (file : Option File)
    (st : ChatState) (db : Db) :
    ∃ rows, (afterResolve env cid content file st db).2.chat_messages =
        db.chat_messages ++ rows ∧ ∀ r ∈ rows, r.conversation_id = cid := by
  obtain ⟨rows1, h1, hp1⟩ := saveMessageToDb_delta env.session env.saveUserMsgError cid
    .user (.str content)
    (file.map (fun f => { name := f.name, type := f.type, previewUrl := none,
                          url := (uploadStep env.session env.uploadError file db).1 }))
    (uploadStep env.session env.uploadError file db).2
  simp only [afterResolve]
  cases hw : sendMessageToWebhook env.webhook with
  | error e =>
    dsimp only
    refine ⟨rows1, ?_, fun r hr => (hp1 r hr).1⟩
    rw [h1, uploadStep_chat_messages]
  | ok reply =>
    obtain ⟨rows2, h2, hp2⟩ := saveMessageToDb_delta env.session env.saveAssistantMsgError
      cid .assistant reply none
      (saveMessageToDb env.session env.saveUserMsgError cid .user (.str content)
        (file.map (fun f => { name := f.name, type := f.type, previewUrl := none,
                              url := (uploadStep env.session env.uploadError file db).1 }))
        (uploadStep env.session env.uploadError file db).2)
    dsimp only
    refine ⟨rows1 ++ rows2, ?_, ?_⟩
    · rw [h2, h1, uploadStep_chat_messages, List.append_assoc]
    · intro r hr
      rcases List.mem_append.mp hr with h | h
      · exact (hp1 r h).1
      · exact (hp2 r h).1

theorem afterResolve_conversations_length (env : SendEnv) (cid content : String)
    (file : Option File) (st : ChatState) (db : Db) :
    (afterResolve env cid content file st db).2.conversations.length =
      db.conversations.length := by
  simp only [afterResolve]
  cases hw : sendMessageToWebhook env.webhook with
  | error e =>
    dsimp only
    rw [saveMessageToDb_conversations_length, uploadStep_conversations]
  | ok reply =>
    dsimp only
    rw [saveMessageToDb_conversations_length, saveMessageToDb_conversations_length,
      uploadStep_conversations]

theorem afterResolve_storage (env : SendEnv) (cid content : String)
    (file : Option File) (st : ChatState) (db : Db) :
    ∃ objs, (afterResolve env cid content file st db).2.storage = db.storage ++ objs := by
  obtain ⟨objs, hobjs⟩ := uploadStep_storage env.session env.uploadError file db
  simp only [afterResolve]
  cases hw : sendMessageToWebhook env.webhook with
  | error e =>
    dsimp only
    exact ⟨objs, by rw [saveMessageToDb_storage, hobjs]⟩
  | ok reply =>
    dsimp only
    exact ⟨objs, by rw [saveMessageToDb_storage, saveMessageToDb_storage, hobjs]⟩

theorem afterResolve_webhookError (env : SendEnv) (cid content : String) (file : Option File)
    (st : ChatState) (db : Db) (s : Session)
    (hs : env.session = some s) (hc : ¬ cid = "") (hse : env.saveUserMsgError = false)
    (hw : sendMessageToWebhook env.webhook = Except.error ()) :
    (afterResolve env cid content file st db).1 =
      { st with toasts := st.toasts ++ [("Erro ao processar mensagem.")],
                isTyping := false } ∧
    (afterResolve env cid content file st db).2.chat_messages.map MessageRow.role =
      db.chat_messages.map MessageRow.role ++ [Role.user] := by
  simp only [afterResolve, hw, hs, hse]
  refine ⟨trivial, ?_⟩
  rw [saveMessageToDb_success s cid Role.user (JsonValue.str content)
    (file.map (fun f => { name := f.name, type := f.type, previewUrl := none,
                          url := (uploadStep (some s) env.uploadError file db).1 }))
    ((uploadStep (some s) env.uploadError file db).2) hc]
  simp [uploadStep_chat_messages]

theorem afterResolve_uploadFail_ok (env : SendEnv) (cid content : String)
    (st : ChatState) (db : Db) (s : Session) (f : File) (reply : JsonValue)
    (hs : env.session = some s) (hc : ¬ cid = "") (hup : env.uploadError = true)
    (hse : env.saveUserMsgError = false) (hsa : env.saveAssistantMsgError = false)
    (hw : sendMessageToWebhook env.webhook = Except.ok reply) :
    (afterResolve env cid content (some f) st db).2.chat_messages.map
        (fun r => (r.role, r.attachment_info)) =
      db.chat_messages.map (fun r => (r.role, r.attachment_info)) ++
        [(Role.user,
          some { name := f.name, type := f.type, previewUrl := none, url := none }),
         (Role.assistant, (none : Option Attachment))] ∧
    (afterResolve env cid content (some f) st db).1.messages.map ChatMessage.role =
      st.messages.map ChatMessage.role ++ [Role.assistant] ∧
    (afterResolve env cid content (some f) st db).1.messages.map ChatMessage.content =
      st.messages.map ChatMessage.content ++ [reply] ∧
    (afterResolve env cid content (some f) st db).1.isTyping = false := by
  simp only [afterResolve, hw, hs, hse, hsa]
  rw [hup, uploadStep_fail]
  dsimp only [Option.map]
  rw [saveMessageToDb_success s cid Role.user (JsonValue.str content)
    (some { name := f.name, type := f.type, previewUrl := none, url := none }) db hc]
  rw [saveMessageToDb_success s cid Role.assistant reply none _ hc]
  refine ⟨?_, ?_, ?_, trivial⟩ <;> simp

/-- C3: invoking the send action while a prior send is in flight (busy
flag set) is a no-op — the component state and the backend are returned
unchanged whatever the environment, so no second pipeline execution
happens; and whenever the flag was clear it is clear again on every exit
path of the run. -/
theorem send_reentrancy_guard (st : ChatState) :
    (∀ env db, st.isTyping = true → handleSendMessage env st db = (st, db)) ∧
    (∀ env db, st.isTyping = false → (handleSendMessage env st db).1.isTyping = false) := by
  constructor
  · intro env db hbusy
    simp only [handleSendMessage]
    rw [if_pos (Or.inr hbusy)]
  · intro env db hidle
    by_cases hg : (jsTrim st.inputValue = "" ∧ st.selectedFile = none) ∨ st.isTyping = true
    · simp only [handleSendMessage]
      rw [if_pos hg]
      exact hidle
    · simp only [handleSendMessage]
      rw [if_neg hg]
      cases hac : st.activeConversationId with
      | some cid =>
        dsimp only
        apply afterResolve_isTyping
      | none =>
        dsimp only
        rcases hcr : createConversation env.session env.createConvError st.inputValue db
          with ⟨o, db1⟩
        cases o with
        | some conv =>
          dsimp only
          apply afterResolve_isTyping
        | none => rfl

/-- Witness for C3: a busy concrete state is left unchanged, and a
completed run on an idle concrete state ends with the flag clear. -/
theorem send_reentrancy_guard_witness :
    handleSendMessage sampleEnvOk busySampleState sampleDb = (busySampleState, sampleDb) ∧
    (handleSendMessage sampleEnvOk sampleState sampleDb).1.isTyping = false :=
  ⟨(send_reentrancy_guard busySampleState).1 sampleEnvOk sampleDb rfl,
   (send_reentrancy_guard sampleState).2 sampleEnvOk sampleDb rfl⟩

theorem createConversation_success (s : Session) (title : String) (db : Db) :
    createConversation (some s) false title db =
      (some { id := String.mk ('c' :: (toString db.nextId).toList), user_id := s.userId,
              title := cleanTitleOf title, updated_at := db.now },
       { db with
         conversations :=
           db.conversations ++
             [{ id := String.mk ('c' :: (toString db.nextId).toList), user_id := s.userId,
                title := cleanTitleOf title, updated_at := db.now }],
         nextId := db.nextId + 1, now := db.now + 1 }) := rfl

/-- C1: when the reply-gateway request throws, the run aborts after the
user message was persisted — exactly one user row and no assistant row is
added for the exchange — the error is reported through a toast, the busy
flag is cleared, and the earlier effects (optimistic message in the list,
any created conversation, any uploaded object, the persisted user row)
are not rolled back. -/
theorem pipeline_webhook_failure (env : SendEnv) (st : ChatState) (db : Db) (s : Session)
    (hguard : ¬ ((jsTrim st.inputValue = "" ∧ st.selectedFile = none) ∨ st.isTyping = true))
    (hs : env.session = some s)
    (hse : env.saveUserMsgError = false)
    (hw : sendMessageToWebhook env.webhook = Except.error ())
    (hres : (∃ cid, st.activeConversationId = some cid ∧ ¬ cid = "") ∨
            (st.activeConversationId = none ∧ env.createConvError = false)) :
    (handleSendMessage env st db).2.chat_messages.map MessageRow.role =
        db.chat_messages.map MessageRow.role ++ [Role.user] ∧
    (handleSendMessage env st db).1.messages.map ChatMessage.role =
        st.messages.map ChatMessage.role ++ [Role.user] ∧
    (handleSendMessage env st db).1.toasts.length = st.toasts.length + 1 ∧
    (handleSendMessage env st db).1.isTyping = false ∧
    db.conversations.length ≤ (handleSendMessage env st db).2.conversations.length ∧
    ∃ objs, (handleSendMessage env st db).2.storage = db.storage ++ objs := by
  simp only [handleSendMessage]
  rw [if_neg hguard]
  rcases hres with ⟨cid, hac, hc⟩ | ⟨hac, hcf⟩
  · rw [hac]
    dsimp only
    refine ⟨?_, ?_, ?_, ?_, ?_, ?_⟩
    · exact (afterResolve_webhookError env cid st.inputValue st.selectedFile _ db s
        hs hc hse hw).2
    · rw [(afterResolve_webhookError env cid st.inputValue st.selectedFile _ db s
        hs hc hse hw).1]
      simp
    · rw [(afterResolve_webhookError env cid st.inputValue st.selectedFile _ db s
        hs hc hse hw).1]
      simp
    · apply afterResolve_isTyping
    · rw [afterResolve_conversations_length]
    · exact afterResolve_storage env cid st.inputValue st.selectedFile _ db
  · rw [hac, hs, hcf, createConversation_success]
    dsimp only
    refine ⟨?_, ?_, ?_, ?_, ?_, ?_⟩
    · exact (afterResolve_webhookError env (String.mk ('c' :: (toString db.nextId).toList))
        st.inputValue st.selectedFile _ _ s hs (convId_ne_empty db.nextId) hse hw).2
    · rw [(afterResolve_webhookError env (String.mk ('c' :: (toString db.nextId).toList))
        st.inputValue st.selectedFile _ _ s hs (convId_ne_empty db.nextId) hse hw).1]
      simp
    · rw [(afterResolve_webhookError env (String.mk ('c' :: (toString db.nextId).toList))
        st.inputValue st.selectedFile _ _ s hs (convId_ne_empty db.nextId) hse hw).1]
      simp
    · apply afterResolve_isTyping
    · rw [afterResolve_conversations_length]
      simp
    · exact afterResolve_storage env (String.mk ('c' :: (toString db.nextId).toList))
        st.inputValue st.selectedFile _ _

/-- Witness for C1: a concrete run whose webhook request fails at the
transport persists exactly one user row and clears the busy flag. -/
theorem pipeline_webhook_failure_witness :
    (handleSendMessage sampleEnvNetFail sampleState sampleDb).2.chat_messages.map
        MessageRow.role =
      sampleDb.chat_messages.map MessageRow.role ++ [Role.user] ∧
    (handleSendMessage sampleEnvNetFail sampleState sampleDb).1.isTyping = false := by
  obtain ⟨h1, _, _, h4, _, _⟩ := pipeline_webhook_failure sampleEnvNetFail sampleState
    sampleDb sampleSession (by decide) rfl rfl rfl (Or.inr ⟨rfl, rfl⟩)
  exact ⟨h1, h4⟩

/-- C2: a message is never persisted under an empty conversation
reference — `saveMessageToDb` with an empty id inserts nothing — and a
run with no active conversation creates exactly one conversation and
adopts its id before any message write (every row the run inserts carries
the fresh id); when creation fails no message is persisted at all. -/
theorem message_requires_conversation :
    (∀ sess e role content info db,
      saveMessageToDb sess e ("") role content info db = db) ∧
    (∀ env st db (s : Session),
      ¬ ((jsTrim st.inputValue = "" ∧ st.selectedFile = none) ∨ st.isTyping = true) →
      st.activeConversationId = none → env.session = some s →
      env.createConvError = false →
      (handleSendMessage env st db).2.conversations.length =
          db.conversations.length + 1 ∧
      (handleSendMessage env st db).1.activeConversationId =
          some (String.mk ('c' :: (toString db.nextId).toList)) ∧
      ∃ rows, (handleSendMessage env st db).2.chat_messages = db.chat_messages ++ rows ∧
        ∀ r ∈ rows, r.conversation_id = String.mk ('c' :: (toString db.nextId).toList)) ∧
    (∀ env st db,
      ¬ ((jsTrim st.inputValue = "" ∧ st.selectedFile = none) ∨ st.isTyping = true) →
      st.activeConversationId = none →
      (env.session = none ∨ env.createConvError = true) →
      (handleSendMessage env st db).2 = db) := by
  refine ⟨?_, ?_, ?_⟩
  · intro sess e role content info db
    cases sess with
    | none => rfl
    | some s => simp [saveMessageToDb]
  · intro env st db s hguard hac hs hcf
    simp only [handleSendMessage]
    rw [if_neg hguard, hac, hs, hcf, createConversation_success]
    dsimp only
    refine ⟨?_, ?_, ?_⟩
    · rw [afterResolve_conversations_length]
      simp
    · rw [afterResolve_activeId]
    · obtain ⟨rows, h, hp⟩ := afterResolve_delta env
        (String.mk ('c' :: (toString db.nextId).toList)) st.inputValue st.selectedFile
        { st with
          messages := st.messages ++
            [{ id := toString db.now, role := Role.user,
               content := JsonValue.str st.inputValue, timestamp := db.now,
               attachment := Option.map (fun f =>
                 { name := f.name, type := f.type,
                   previewUrl := match st.selectedFile with
                     | some f => if List.take 6 f.type.toList = ("image/").toList
                                 then some (("blob:") ++ f.name) else none
                     | none => none,
                   url := none }) st.selectedFile }],
          inputValue := "", isTyping := true, selectedFile := none,
          conversations :=
            { id := String.mk ('c' :: (toString db.nextId).toList), user_id := s.userId,
              title := cleanTitleOf st.inputValue, updated_at := db.now } :: st.conversations,
          activeConversationId := some (String.mk ('c' :: (toString db.nextId).toList)),
          toasts := st.toasts }
        { db with
          conversations :=
            db.conversations ++
              [{ id := String.mk ('c' :: (toString db.nextId).toList), user_id := s.userId,
                 title := cleanTitleOf st.inputValue, updated_at := db.now }],
          nextId := db.nextId + 1, now := db.now + 1 }
      exact ⟨rows, h, hp⟩
  · intro env st db hguard hac hfail
    simp only [handleSendMessage]
    rw [if_neg hguard, hac]
    rcases hfail with hsn | hce
    · rw [hsn]
      rfl
    · rw [hce]
      cases env.session <;> rfl

/-- Witness for C2 at concrete inputs: an empty conversation id inserts
nothing, a concrete run with no active conversation creates exactly one
conversation, and a concrete run whose creation fails persists nothing. -/
theorem message_requires_conversation_witness :
    saveMessageToDb (some sampleSession) false ("") Role.user (JsonValue.str ("x")) none
        sampleDb = sampleDb ∧
    (handleSendMessage sampleEnvOk sampleState sampleDb).2.conversations.length =
      sampleDb.conversations.length + 1 ∧
    (handleSendMessage sampleEnvCreateFail sampleState sampleDb).2 = sampleDb :=
  ⟨message_requires_conversation.1 (some sampleSession) false Role.user
      (JsonValue.str ("x")) none sampleDb,
   (message_requires_conversation.2.1 sampleEnvOk sampleState sampleDb sampleSession
      (by decide) rfl rfl rfl).1,
   message_requires_conversation.2.2 sampleEnvCreateFail sampleState sampleDb
      (by decide) rfl (Or.inr rfl)⟩

/-- C4: `uploadChatAttachment` yields `null` (never an exception) when the
session is missing or the upload is rejected; and a run whose upload
fails still completes — the user row is persisted with an attachment
descriptor whose durable URL is absent, the reply is still requested and,
when it arrives, the assistant row is appended and persisted. -/
theorem upload_failure_degrades (env : SendEnv) (st : ChatState) (db : Db) (s : Session)
    (f : File) (reply : JsonValue)
    (hbusy : st.isTyping = false)
    (hfile : st.selectedFile = some f)
    (hs : env.session = some s)
    (hup : env.uploadError = true)
    (hse : env.saveUserMsgError = false)
    (hsa : env.saveAssistantMsgError = false)
    (hw : sendMessageToWebhook env.webhook = Except.ok reply)
    (hres : (∃ cid, st.activeConversationId = some cid ∧ ¬ cid = "") ∨
            (st.activeConversationId = none ∧ env.createConvError = false)) :
    (∀ e f2 db2, uploadChatAttachment none e f2 db2 = (none, db2)) ∧
    (∀ s2 f2 db2, uploadChatAttachment (some s2) true f2 db2 = (none, db2)) ∧
    (handleSendMessage env st db).2.chat_messages.map
        (fun r => (r.role, r.attachment_info)) =
      db.chat_messages.map (fun r => (r.role, r.attachment_info)) ++
        [(Role.user,
          some { name := f.name, type := f.type, previewUrl := none, url := none }),
         (Role.assistant, (none : Option Attachment))] ∧
    (handleSendMessage env st db).1.messages.map ChatMessage.role =
      st.messages.map ChatMessage.role ++ [Role.user, Role.assistant] ∧
    (handleSendMessage env st db).1.isTyping = false := by
  have hguard : ¬ ((jsTrim st.inputValue = "" ∧ st.selectedFile = none) ∨
      st.isTyping = true) := by
    intro h
    rcases h with ⟨_, hn⟩ | hb
    · rw [hfile] at hn
      exact Option.noConfusion hn
    · rw [hbusy] at hb
      exact Bool.noConfusion hb
  refine ⟨fun e f2 db2 => rfl, fun s2 f2 db2 => rfl, ?_, ?_, ?_⟩ <;>
    · simp only [handleSendMessage]
      rw [if_neg hguard, hfile]
      rcases hres with ⟨cid, hac, hc⟩ | ⟨hac, hcf⟩
      · rw [hac]
        dsimp only
        first
        | exact (afterResolve_uploadFail_ok env cid st.inputValue _ db s f reply
            hs hc hup hse hsa hw).1
        | · rw [(afterResolve_uploadFail_ok env cid st.inputValue _ db s f reply
              hs hc hup hse hsa hw).2.1]
            simp
        | apply afterResolve_isTyping
      · rw [hac, hs, hcf, createConversation_success]
        dsimp only
        first
        | exact (afterResolve_uploadFail_ok env
            (String.mk ('c' :: (toString db.nextId).toList)) st.inputValue _ _ s f reply
            hs (convId_ne_empty db.nextId) hup hse hsa hw).1
        | · rw [(afterResolve_uploadFail_ok env
              (String.mk ('c' :: (toString db.nextId).toList)) st.inputValue _ _ s f reply
              hs (convId_ne_empty db.nextId) hup hse hsa hw).2.1]
            simp
        | apply afterResolve_isTyping

/-- Witness for C4: a concrete run with a selected file and a rejected
upload persists the user row with a URL-less descriptor and still
persists the assistant reply. -/
theorem upload_failure_degrades_witness :
    (handleSendMessage sampleEnvUploadFail fileSampleState sampleDb).2.chat_messages.map
        (fun r => (r.role, r.attachment_info)) =
      sampleDb.chat_messages.map (fun r => (r.role, r.attachment_info)) ++
        [(Role.user, some { name := sampleFile.name, type := sampleFile.type,
                            previewUrl := none, url := none }),
         (Role.assistant, (none : Option Attachment))] := by
  obtain ⟨_, _, h3, _, _⟩ := upload_failure_degrades sampleEnvUploadFail fileSampleState
    sampleDb sampleSession sampleFile (JsonValue.str ("ola")) rfl rfl rfl rfl rfl rfl rfl
    (Or.inr ⟨rfl, rfl⟩)
  exact h3

theorem insertByTime_min (m : MessageRow) (l : List MessageRow)
    (h : ∀ x ∈ l, m.created_at < x.created_at) : insertByTime m l = m :: l := by
  cases l with
  | nil => rfl
  | cons x xs =>
    have hx : ¬ (x.created_at ≤ m.created_at) :=
      Nat.not_le.mpr (h x (List.mem_cons_self x xs))
    simp [insertByTime, hx]

theorem sortByTime_sorted (l : List MessageRow)
    (h : l.Pairwise (fun a b => a.created_at < b.created_at)) : sortByTime l = l := by
  induction l with
  | nil => rfl
  | cons x xs ih =>
    rw [List.pairwise_cons] at h
    simp only [sortByTime]
    rw [ih h.2, insertByTime_min x xs h.1]

theorem mkRows_time_le (s : Session) (cid : String) :
    ∀ (reqs : List SaveReq) (t : Nat) (r : MessageRow),
      r ∈ mkRows s cid reqs t → t ≤ r.created_at := by
  intro reqs
  induction reqs with
  | nil =>
    intro t r hr
    simp [mkRows] at hr
  | cons q qs ih =>
    intro t r hr
    rw [mkRows, List.mem_cons] at hr
    rcases hr with hr | hr
    · subst hr
      exact Nat.le_refl t
    · exact Nat.le_trans (Nat.le_succ t) (ih (t + 1) r hr)

theorem mkRows_pairwise (s : Session) (cid : String) :
    ∀ (reqs : List SaveReq) (t : Nat),
      (mkRows s cid reqs t).Pairwise (fun a b => a.created_at < b.created_at) := by
  intro reqs
  induction reqs with
  | nil =>
    intro t
    simp [mkRows]
  | cons q qs ih =>
    intro t
    rw [mkRows, List.pairwise_cons]
    refine ⟨?_, ih (t + 1)⟩
    intro b hb
    have hle := mkRows_time_le s cid qs (t + 1) b hb
    simp only [mkRow]
    omega

theorem mkRows_filter (s : Session) (cid : String) :
    ∀ (reqs : List SaveReq) (t : Nat),
      (mkRows s cid reqs t).filter (fun r => r.conversation_id == cid) =
        mkRows s cid reqs t := by
  intro reqs
  induction reqs with
  | nil => intro t; rfl
  | cons q qs ih =>
    intro t
    rw [mkRows, List.filter_cons]
    simp only [mkRow]
    simp [ih (t + 1)]

theorem applySaves_spec (s : Session) (cid : String) (hc : ¬ cid = "") :
    ∀ (reqs : List SaveReq) (db : Db),
      (applySaves s cid reqs db).chat_messages =
        db.chat_messages ++ mkRows s cid reqs db.now := by
  intro reqs
  induction reqs with
  | nil =>
    intro db
    simp [applySaves, mkRows]
  | cons q qs ih =>
    intro db
    have happ : applySaves s cid (q :: qs) db =
        applySaves s cid qs
          (saveMessageToDb (some s) false cid q.role q.content q.attachmentInfo db) := rfl
    rw [happ, saveMessageToDb_success s cid q.role q.content q.attachmentInfo db hc, ih]
    rw [mkRows]
    simp [mkRow]

theorem rowToChatMessage_attachment (r : MessageRow) :
    (rowToChatMessage r).attachment = r.attachment_info := by
  cases h : r.attachment_info with
  | none => simp [rowToChatMessage, h]
  | some a => simp [rowToChatMessage, h]

theorem mkRows_proj (s : Session) (cid : String) :
    ∀ (reqs : List SaveReq) (t : Nat),
      (mkRows s cid reqs t).map
          (fun r => ((rowToChatMessage r).role, (rowToChatMessage r).content,
                     (rowToChatMessage r).attachment)) =
        reqs.map (fun q => (q.role, q.content, q.attachmentInfo)) := by
  intro reqs
  induction reqs with
  | nil => intro t; rfl
  | cons q qs ih =>
    intro t
    rw [mkRows, List.map_cons, List.map_cons, ih (t + 1)]
    rw [rowToChatMessage_attachment]
    rfl

theorem mkRows_mem_info (s : Session) (cid : String) :
    ∀ (reqs : List SaveReq) (t : Nat) (r : MessageRow), r ∈ mkRows s cid reqs t →
      ∃ q ∈ reqs, r.attachment_info = q.attachmentInfo := by
  intro reqs
  induction reqs with
  | nil =>
    intro t r hr
    simp [mkRows] at hr
  | cons q qs ih =>
    intro t r hr
    rw [mkRows, List.mem_cons] at hr
    rcases hr with hr | hr
    · exact ⟨q, List.mem_cons_self q qs, by rw [hr]; rfl⟩
    · obtain ⟨q2, hq2, he⟩ := ih (t + 1) r hr
      exact ⟨q2, List.mem_cons_of_mem q hq2, he⟩

/-- C6: after any sequence of pipeline-shaped saves under one conversation
(starting from a state with no rows for that conversation), `loadChatHistory`
returns the messages in the order they were saved, with role, content and
the attachment descriptor's name, type and durable URL equal to what was
supplied, and with no transient preview reference (none was persisted, so
none is reconstructed). -/
theorem save_load_round_trip (s : Session) (cid : String) (db : Db) (reqs : List SaveReq)
    (hc : ¬ cid = "")
    (hclean : ∀ r ∈ db.chat_messages, ¬ r.conversation_id = cid)
    (hpv : ∀ req ∈ reqs, ∀ a, req.attachmentInfo = some a → a.previewUrl = none) :
    (loadChatHistory (some s) false cid (applySaves s cid reqs db)).map
        (fun m => (m.role, m.content, m.attachment)) =
      reqs.map (fun q => (q.role, q.content, q.attachmentInfo)) ∧
    ∀ m ∈ loadChatHistory (some s) false cid (applySaves s cid reqs db),
      ∀ a, m.attachment = some a → a.previewUrl = none := by
  have hload0 : loadChatHistory (some s) false cid (applySaves s cid reqs db) =
      (sortByTime ((applySaves s cid reqs db).chat_messages.filter
        (fun r => r.conversation_id == cid))).map rowToChatMessage := rfl
  have hnil : db.chat_messages.filter (fun r => r.conversation_id == cid) = [] := by
    rw [List.filter_eq_nil_iff]
    intro a ha
    simpa using hclean a ha
  have hfiltered : (applySaves s cid reqs db).chat_messages.filter
      (fun r => r.conversation_id == cid) = mkRows s cid reqs db.now := by
    rw [applySaves_spec s cid hc reqs db, List.filter_append, mkRows_filter, hnil,
      List.nil_append]
  have hload : loadChatHistory (some s) false cid (applySaves s cid reqs db) =
      (mkRows s cid reqs db.now).map rowToChatMessage := by
    rw [hload0, hfiltered, sortByTime_sorted _ (mkRows_pairwise s cid reqs db.now)]
  constructor
  · rw [hload, List.map_map]
    exact mkRows_proj s cid reqs db.now
  · rw [hload]
    intro m hm a ha
    obtain ⟨r, hr, hmr⟩ := List.mem_map.mp hm
    obtain ⟨q, hq, hinfo⟩ := mkRows_mem_info s cid reqs db.now r hr
    have hqa : q.attachmentInfo = some a := by
      rw [← hinfo, ← rowToChatMessage_attachment r, hmr]
      exact ha
    exact hpv q hq a hqa

/-- Witness for C6: two concrete saves (one with an attachment carrying a
durable URL) round-trip through `loadChatHistory` in order. -/
theorem save_load_round_trip_witness :
    (loadChatHistory (some sampleSession) false ("c0")
        (applySaves sampleSession ("c0")
          [{ role := Role.user, content := JsonValue.str ("oi"),
             attachmentInfo := some { name := ("a.png"), type := ("image/png"),
                                      previewUrl := none, url := some ("u") } },
           { role := Role.assistant, content := JsonValue.str ("ola"),
             attachmentInfo := none }] sampleDb)).map
        (fun m => (m.role, m.content, m.attachment)) =
      [(Role.user, JsonValue.str ("oi"),
        some { name := ("a.png"), type := ("image/png"),
               previewUrl := none, url := some ("u") }),
       (Role.assistant, JsonValue.str ("ola"), (none : Option Attachment))] := by
  have h := (save_load_round_trip sampleSession ("c0") sampleDb
    [{ role := Role.user, content := JsonValue.str ("oi"),
       attachmentInfo := some { name := ("a.png"), type := ("image/png"),
                                previewUrl := none, url := some ("u") } },
     { role := Role.assistant, content := JsonValue.str ("ola"), attachmentInfo := none }]
    (by decide) (by intro r hr; simp [sampleDb] at hr)
    (by
      intro req hreq a ha
      rw [List.mem_cons, List.mem_singleton] at hreq
      rcases hreq with hreq | hreq <;> subst hreq <;>
        simp only [Option.some.injEq] at ha
      · rw [← ha]
      · exact Option.noConfusion ha)).1
  rw [h]
  rfl
